import Mathlib

/-!
# Verification of the HP9845 display controller emulation

A shallow embedding, in Lean 4, of the graphics subsystem of the HP 9845B/C/T
driver (`src/mame/drivers/hp9845.cpp`): the bit-plane memory and the `plot`
primitive of the color (98770A) variant, the vector/area-fill engine
(`draw_line`, `pattern_fill`), the command-protocol finite state machine
(`advance_gv_fsm`, both the single-plane `hp9845b` variant and the
three-plane `hp9845c` variant), the I/O address counter, the light-pen model
(`compute_lp_data`), the alpha buffer fetcher (`video_fill_buff`) and the
blanking logic of the scanline renderer (`video_render_buff`).

Machine integers are modelled as `Nat` with explicit masking where the source
masks (`& 0x3fff`, `& 0xffff`, ...); 16-bit complement `~w` is modelled as
`0xffff ^^^ w`; memory planes are modelled as functions `Nat → Nat` from word
addresses to word values.
-/

namespace HP9845

/-- `GVIDEO_MEM_SIZE - 1` with `GVIDEO_MEM_SIZE = 16384`. -/
def GVIDEO_ADDR_MASK : Nat := 0x3fff

/-- One's complement on a 16-bit word (`~w` on a `uint16_t`). -/
def cpl16 (w : Nat) : Nat := 0xffff ^^^ (w &&& 0xffff)

/-- `hp9845ct_state::get_gv_mem_addr`: `(x + y * 35) & GVIDEO_ADDR_MASK`. -/
def get_gv_mem_addr (x y : Nat) : Nat := (x + y * 35) &&& GVIDEO_ADDR_MASK

/-- The three bit planes of the 98770A (color) variant, `m_graphic_mem[0..2]`:
each plane is a word-addressed array of 16-bit words, modelled as a function
from word address to word value. -/
structure ColorPlanes where
  plane0 : Nat → Nat
  plane1 : Nat → Nat
  plane2 : Nat → Nat

/-- Store one word into a plane at one word address. -/
def updWord (mem : Nat → Nat) (a v : Nat) : Nat → Nat :=
  fun i => if i = a then v else mem i

/-- The per-plane body of `hp9845c_state::plot` for plane `k` (`k` ∈ {0,1,2}):
plane-active flag is bit `k` of the memory-control word, the plane's set flag
is bit `k+3`, dominance is bit 6.  The C sequence is
`do_erase = dominance; do_draw = draw_erase;
 if (!BIT(mc, k+3) && draw_erase) { do_draw = false; do_erase = true; }`
followed by `|= pixel_mask` on draw or `&= ~pixel_mask` on erase. -/
def plotPlane (mc k : Nat) (mem : Nat → Nat) (addr pixel_mask : Nat)
    (draw_erase : Bool) : Nat → Nat :=
  if mc.testBit k then
    let dominance := mc.testBit 6
    let dd : Bool × Bool :=
      if !(mc.testBit (k+3)) && draw_erase then (false, true)
      else (draw_erase, dominance)
    if dd.1 then updWord mem addr ((mem addr ||| pixel_mask) &&& 0xffff)
    else if dd.2 then updWord mem addr (mem addr &&& (0xffff ^^^ pixel_mask))
    else mem
  else mem

/-- `hp9845c_state::plot`: `pixel_mask = 0x8000 >> (x & 0xf)`,
`addr = get_gv_mem_addr(x >> 4, y)`, then the three per-plane updates. -/
def plot (mc : Nat) (pl : ColorPlanes) (x y : Nat) (draw_erase : Bool) :
    ColorPlanes :=
  let pixel_mask := 0x8000 >>> (x &&& 0xf)
  let addr := get_gv_mem_addr (x >>> 4) y
  { plane0 := plotPlane mc 0 pl.plane0 addr pixel_mask draw_erase
    plane1 := plotPlane mc 1 pl.plane1 addr pixel_mask draw_erase
    plane2 := plotPlane mc 2 pl.plane2 addr pixel_mask draw_erase }

/-- Direct read of the addressed bit of a plane (§4.1 `read_pixel`:
mask `0x8000 >> (x & 15)` at word `get_gv_mem_addr(x >> 4, y)`). -/
def readPixel (mem : Nat → Nat) (x y : Nat) : Bool :=
  mem (get_gv_mem_addr (x >>> 4) y) &&& (0x8000 >>> (x &&& 0xf)) ≠ 0

/-- The dominance truth table of spec §4.3 for a single plane, stated from the
spec's words: an inactive plane is unchanged; an explicit set (draw requested
with the plane's set flag enabled) sets the bit; draw with the set flag
disabled erases; erase erases when dominance is set and otherwise leaves the
bit unchanged. -/
def dominanceTable (active setFlag dominance old draw_erase : Bool) : Bool :=
  if !active then old
  else if draw_erase && setFlag then true
  else if draw_erase then false
  else if dominance then false
  else old

lemma and_two_pow_ne_zero (v b : Nat) : (v &&& 2 ^ b ≠ 0) ↔ v.testBit b := by
  rw [Nat.and_two_pow]
  cases h : v.testBit b <;> simp [h, (Nat.two_pow_pos b).ne']

lemma mask_shift_eq (r : Nat) (h : r < 16) : 0x8000 >>> r = 2 ^ (15 - r) := by
  interval_cases r <;> rfl

lemma readPixel_set (w b : Nat) (hb : b < 16) :
    Nat.testBit ((w ||| 2 ^ b) &&& 0xffff) b = true := by
  rw [show (0xffff : Nat) = 2 ^ 16 - 1 by norm_num]
  rw [Nat.testBit_and, Nat.testBit_or, Nat.testBit_two_pow_sub_one,
    Nat.testBit_two_pow_self]
  simp [hb]

lemma readPixel_clear (w b : Nat) (hb : b < 16) :
    Nat.testBit (w &&& (0xffff ^^^ 2 ^ b)) b = false := by
  rw [show (0xffff : Nat) = 2 ^ 16 - 1 by norm_num]
  rw [Nat.testBit_and, Nat.testBit_xor, Nat.testBit_two_pow_sub_one,
    Nat.testBit_two_pow_self]
  simp [hb]

/-- Reading back the plotted bit of one plane gives the dominance truth table. -/
lemma plotPlane_read (mc k : Nat) (mem : Nat → Nat) (x y : Nat) (de : Bool) :
    readPixel (plotPlane mc k mem (get_gv_mem_addr (x >>> 4) y)
        (0x8000 >>> (x &&& 0xf)) de) x y
      = dominanceTable (mc.testBit k) (mc.testBit (k+3)) (mc.testBit 6)
        (readPixel mem x y) de := by
  have hx : x &&& 0xf = x % 16 := by
    have : (0xf : Nat) = 2 ^ 4 - 1 := by norm_num
    rw [this, Nat.and_pow_two_sub_one_eq_mod]
  have hr : x % 16 < 16 := Nat.mod_lt _ (by norm_num)
  have hmask : 0x8000 >>> (x &&& 0xf) = 2 ^ (15 - x % 16) := by
    rw [hx]; exact mask_shift_eq _ hr
  have hb : 15 - x % 16 < 16 := by omega
  unfold readPixel plotPlane dominanceTable updWord
  rw [hmask]
  by_cases hk : mc.testBit k
  · by_cases hs : mc.testBit (k+3)
    · by_cases hd : mc.testBit 6 <;> cases de <;>
        simp [hk, hs, hd, and_two_pow_ne_zero, readPixel_set _ _ hb,
          readPixel_clear _ _ hb]
    · by_cases hd : mc.testBit 6 <;> cases de <;>
        simp [hk, hs, hd, and_two_pow_ne_zero, readPixel_set _ _ hb,
          readPixel_clear _ _ hb]
  · simp [hk, and_two_pow_ne_zero]

/-- C1: for every coordinate and every combination of the per-plane active
flags, per-plane set flags and the dominance flag in the memory-control word,
`plot(x, y, draw_erase)` followed by a direct read of the addressed bit of
each plane gives the result of the dominance truth table of spec §4.3: an
inactive plane is unchanged; an explicit set (draw with the plane's set flag
enabled) sets the bit; draw with the set flag disabled erases; any other call
erases when dominance is set and otherwise leaves the bit unchanged. -/
theorem plot_then_read_matches_dominance_table
    (mc : Nat) (pl : ColorPlanes) (x y : Nat) (de : Bool) :
    readPixel (plot mc pl x y de).plane0 x y
      = dominanceTable (mc.testBit 0) (mc.testBit 3) (mc.testBit 6)
          (readPixel pl.plane0 x y) de
  ∧ readPixel (plot mc pl x y de).plane1 x y
      = dominanceTable (mc.testBit 1) (mc.testBit 4) (mc.testBit 6)
          (readPixel pl.plane1 x y) de
  ∧ readPixel (plot mc pl x y de).plane2 x y
      = dominanceTable (mc.testBit 2) (mc.testBit 5) (mc.testBit 6)
          (readPixel pl.plane2 x y) de := by
  refine ⟨?_, ?_, ?_⟩
  · exact plotPlane_read mc 0 pl.plane0 x y de
  · exact plotPlane_read mc 1 pl.plane1 x y de
  · exact plotPlane_read mc 2 pl.plane2 x y de

/-! ## Vector & fill engine: line pattern, `draw_line`, `pattern_fill` -/

/-- `hp9845ct_state::m_line_type` dash pattern table. -/
def m_line_type : List Nat :=
  [0xffff, 0xaaaa, 0xff00, 0xfff0, 0xfffa, 0xfff6, 0xffb6, 0x0000]

/-- `hp9845ct_state::m_area_fill` halftone pattern table. -/
def m_area_fill : List Nat :=
  [0xffff, 0xefff, 0xefbf, 0xefaf, 0xafaf, 0xadaf, 0xada7, 0xada5,
   0xa5a5, 0xa4a5, 0xa4a1, 0xa4a0, 0xa0a0, 0x80a0, 0x8020, 0x8000]

/-- Dash-pattern rotation state: `m_gv_line_type_mask` (16-bit) and
`m_gv_repeat_count` (8-bit). -/
structure LineState where
  mask : Nat
  rc : Nat
  deriving DecidableEq, Repr

/-- `hp9845ct_state::update_line_pattern`: increment the 8-bit repeat count;
when it exceeds the repeat field `(m_gv_line_type_area_fill >> 5) & 0xf`,
rotate the 16-bit mask one bit to the left and clear the count. -/
def update_line_pattern (ltaf : Nat) (ls : LineState) : LineState :=
  let rc := (ls.rc + 1) % 256
  if rc > (ltaf >>> 5) &&& 0xf then
    let save_bit := if ls.mask.testBit 15 then 1 else 0
    ⟨(save_bit ||| (ls.mask <<< 1)) &&& 0xffff, 0⟩
  else ⟨ls.mask, rc⟩

/-- Body of the Bresenham loop of `hp9845ct_state::draw_line`, with a fuel
bound on the iteration count (the C loop is `for(;;)` with a break; fuel
`dx + dy + 1` is an upper bound on the number of plotted points).  Returns
the trace of `plot` calls, the updated planes and the dash-pattern state. -/
def draw_line_aux (mc ltaf : Nat) (x1 y1 dx dy sx sy : Int) :
    Nat → Int → Int → Int → ColorPlanes → LineState →
    List (Int × Int × Bool) × ColorPlanes × LineState
  | 0, _x, _y, _err, pl, ls => ([], pl, ls)
  | fuel+1, x, y, err, pl, ls =>
    let de := ls.mask.testBit 15
    let pl' := plot mc pl (Int.emod x 65536).toNat (Int.emod y 65536).toNat de
    let ls' := update_line_pattern ltaf ls
    if x = x1 ∧ y = y1 then ([(x, y, de)], pl', ls')
    else
      let e2 := err
      let err1 := if e2 > -dx then err - dy else err
      let x' := if e2 > -dx then x + sx else x
      let err2 := if e2 < dy then err1 + dx else err1
      let y' := if e2 < dy then y + sy else y
      let r := draw_line_aux mc ltaf x1 y1 dx dy sx sy fuel x' y' err2 pl' ls'
      ((x, y, de) :: r.1, r.2)

/-- `hp9845ct_state::draw_line`: integer Bresenham walk from `(x0,y0)` to
`(x1,y1)`, plotting with the top bit of the dash mask and advancing the
dash pattern once per plotted point. -/
def draw_line (mc ltaf : Nat) (x0 y0 x1 y1 : Nat) (pl : ColorPlanes)
    (ls : LineState) : List (Int × Int × Bool) × ColorPlanes × LineState :=
  let dx : Int := |(x1 : Int) - (x0 : Int)|
  let sx : Int := if (x0 : Int) < (x1 : Int) then 1 else -1
  let dy : Int := |(y1 : Int) - (y0 : Int)|
  let sy : Int := if (y0 : Int) < (y1 : Int) then 1 else -1
  let err : Int := Int.tdiv (if dx > dy then dx else -dy) 2
  draw_line_aux mc ltaf x1 y1 dx dy sx sy (dx.toNat + dy.toNat + 1) x0 y0 err
    pl ls

/-- Per-row fill mask of `hp9845c_state::pattern_fill`: the halftone pattern
shifted left by `(y % 4) * 4`, keeping the top nibble, then broadcast to all
four nibbles. -/
def fill_mask_row (ltaf y : Nat) : Nat :=
  let fm := ((m_area_fill.getD (ltaf &&& 0xf) 0) <<< ((y % 4) * 4)) &&& 0xf000
  fm ||| ((fm >>> 4) ||| (fm >>> 8) ||| (fm >>> 12))

/-- Inner (column) loop of `hp9845c_state::pattern_fill`: `for (; x <= xmax;
x++) plot(x, y, (0x8000 >> (x % 16)) & fill_mask);`.  The fuel is
`xmax + 1 - x` at entry, so fuel `0` is exactly the case `x > xmax`.
Returns the trace of `plot` calls, the updated planes and the final value of
the shared loop variable `x`. -/
def pattern_fill_cols (mc y fm : Nat) :
    Nat → Nat → ColorPlanes → List (Nat × Nat × Bool) × ColorPlanes × Nat
  | 0, x, pl => ([], pl, x)
  | fuel+1, x, pl =>
    let de := ((0x8000 >>> (x % 16)) &&& fm) ≠ 0
    let pl' := plot mc pl x y de
    let r := pattern_fill_cols mc y fm fuel (x+1) pl'
    ((x, y, de) :: r.1, r.2)

/-- Outer (row) loop of `hp9845c_state::pattern_fill`.  As in the source, the
column variable `x` is NOT re-initialised when moving to the next row: it is
threaded through from the previous row's inner loop.  The fuel is
`ymax + 1 - y` at entry. -/
def pattern_fill_rows (mc ltaf xmax : Nat) :
    Nat → Nat → Nat → ColorPlanes → List (Nat × Nat × Bool) × ColorPlanes
  | 0, _x, _y, pl => ([], pl)
  | fuel+1, x, y, pl =>
    let fm := fill_mask_row ltaf y
    let c := pattern_fill_cols mc y fm (xmax + 1 - x) x pl
    let r := pattern_fill_rows mc ltaf xmax fuel c.2.2 (y+1) c.2.1
    (c.1 ++ r.1, r.2)

/-- `hp9845c_state::pattern_fill(x0, y0, x1, y1)`: normalise the bounding box
and run the row loop.  Returns the trace of `plot` calls and the updated
planes. -/
def pattern_fill (mc ltaf : Nat) (pl : ColorPlanes) (x0 y0 x1 y1 : Nat) :
    List (Nat × Nat × Bool) × ColorPlanes :=
  pattern_fill_rows mc ltaf (max x0 x1) (max y0 y1 + 1 - min y0 y1)
    (min x0 x1) (min y0 y1) pl

/-- All-zero bit planes, for concrete evaluations. -/
def zeroPlanes : ColorPlanes := ⟨fun _ => 0, fun _ => 0, fun _ => 0⟩

/-- Trace of the Bresenham walk for a horizontal run ending at `x = 10`:
starting `n` columns to the left of the endpoint, the walk plots the `n + 1`
points `(x, 0) ... (10, 0)` in order, each with the current top bit of the
dash mask, and advances the dash pattern exactly once per point. -/
lemma draw_line_aux_horiz (mc ltaf : Nat) :
    ∀ (n : Nat) (x : Int) (pl : ColorPlanes) (ls : LineState),
      x + n = 10 →
      (draw_line_aux mc ltaf 10 0 10 0 1 (-1) (n+1) x 0 5 pl ls).1
          = (List.range (n+1)).map
              (fun i => (x + Int.ofNat i, (0 : Int),
                ((update_line_pattern ltaf)^[i] ls).mask.testBit 15))
      ∧ (draw_line_aux mc ltaf 10 0 10 0 1 (-1) (n+1) x 0 5 pl ls).2.2
          = (update_line_pattern ltaf)^[n+1] ls := by
  intro n
  induction n with
  | zero =>
    intro x pl ls hx
    have hx10 : x = 10 := by omega
    subst hx10
    simp [draw_line_aux, List.range_succ]
  | succ n ih =>
    intro x pl ls hx
    have hx10 : x ≠ 10 := by omega
    rw [draw_line_aux]
    norm_num [if_neg hx10]
    obtain ⟨ihl, ihr⟩ := ih (x + 1)
      (plot mc pl (x.emod 65536).toNat 0 (ls.mask.testBit 15))
      (update_line_pattern ltaf ls) (by push_cast at hx ⊢; omega)
    refine ⟨?_, ?_⟩
    · conv_rhs => rw [List.range_succ_eq_map, List.map_cons, List.map_map]
      rw [ihl]
      congr 1
      · simp
      rw [List.map_congr_left]
      intro i _
      simp only [Function.comp_apply]
      refine Prod.ext ?_ (Prod.ext rfl ?_)
      · simp only [Int.ofNat_eq_natCast]
        push_cast
        ring
      · have h1i : Nat.succ i = i + 1 := rfl
        rw [h1i, Function.iterate_succ_apply]
    · rw [ihr]
      simp [Function.iterate_succ_apply]

/-- C3: `draw_line(0,0,10,0)` calls `plot` on exactly the 11 points `(0,0)`
through `(10,0)`, in order; each point draws iff bit 15 of the dash mask as
rotated so far is set, and the dash-pattern state is advanced by
`update_line_pattern` exactly once per plotted point (so the final pattern
state is the 11-fold iterate of `update_line_pattern`). -/
theorem draw_line_0_0_10_0 (mc ltaf : Nat) (pl : ColorPlanes) (ls : LineState) :
    (draw_line mc ltaf 0 0 10 0 pl ls).1
        = (List.range 11).map
            (fun i => (Int.ofNat i, (0 : Int),
              ((update_line_pattern ltaf)^[i] ls).mask.testBit 15))
      ∧ (draw_line mc ltaf 0 0 10 0 pl ls).2.2
        = (update_line_pattern ltaf)^[11] ls := by
  have e : draw_line mc ltaf 0 0 10 0 pl ls
      = draw_line_aux mc ltaf 10 0 10 0 1 (-1) 11 0 0 5 pl ls := rfl
  obtain ⟨hl, hr⟩ := draw_line_aux_horiz mc ltaf 10 0 pl ls (by norm_num)
  have h11 : (10 : Nat) + 1 = 11 := rfl
  rw [h11] at hl hr
  refine ⟨?_, ?_⟩
  · rw [e, hl, List.map_congr_left]
    intro i _
    simp
  · rw [e]
    exact hr

/-- C2: the claim fails on the code.  `pattern_fill` does not re-initialise
the column variable `x` when moving to the next row (in the source, `x` is
set to `min(x0, x1)` once, before the row loop), so after the first row
completes, `x = xmax + 1` and the inner loop body never runs again.  On the
box (0,0)-(1,1) with pattern 0 (solid), `plot` is called only at `(0,0)` and
`(1,0)`; the claimed calls at `(0,1)` and `(1,1)` never happen. -/
theorem pattern_fill_plots_first_row_only :
    (pattern_fill 0 0 zeroPlanes 0 0 1 1).1 = [(0, 0, true), (1, 0, true)] := by
  decide

/-! ## Command protocol state machine

States of `gv_fsm_state_t`.  The enumeration itself is declared in
`includes/hp9845.h` (not part of this file); the source comment on the
`GV_STAT_WAIT_DS_0` case of the color variant — "inital state (same as
GV_STAT_RESET)" — fixes `GV_STAT_RESET = GV_STAT_WAIT_DS_0`; the concrete
numbering of the other states is immaterial, only their distinctness is
used. -/

def GV_STAT_RESET : Nat := 0
def GV_STAT_WAIT_DS_0 : Nat := 0
def GV_STAT_WAIT_TRIG_0 : Nat := 1
def GV_STAT_WAIT_MEM_0 : Nat := 2
def GV_STAT_WAIT_DS_1 : Nat := 3
def GV_STAT_WAIT_DS_2 : Nat := 4
def GV_STAT_WAIT_TRIG_1 : Nat := 5
def GV_STAT_WAIT_MEM_1 : Nat := 6
def GV_STAT_WAIT_MEM_2 : Nat := 7

/-- State of the single-plane (98750A, `hp9845b_state`) graphics controller:
the FSM state, command register fields, data registers, I/O counter, cursor
state, the single bit plane, whether the one-shot `m_gv_timer` has been
armed, and the three output signals recomputed by `update_graphic_bits`. -/
structure BState where
  fsm : Nat
  cmd : Nat
  int_en : Bool
  dma_en : Bool
  data_w : Nat
  data_r : Nat
  cursor_w : Nat
  io_counter : Nat
  cursor_x : Nat
  cursor_y : Nat
  cursor_gc : Bool
  cursor_fs : Bool
  mem : Nat → Nat
  timer : Bool
  flg : Bool
  irq : Bool
  dmar : Bool

/-- `hp9845b_state::update_graphic_bits`: ready iff the FSM is in
WAIT_DS_0 / WAIT_DS_1 / WAIT_DS_2; `flg = ready`,
`irq = int_en && !dma_en && ready`, `dmar = ready && dma_en`. -/
def update_graphic_bits_b (s : BState) : BState :=
  let gv_ready := s.fsm == GV_STAT_WAIT_DS_0 || s.fsm == GV_STAT_WAIT_DS_1
    || s.fsm == GV_STAT_WAIT_DS_2
  { s with flg := gv_ready
           irq := s.int_en && !s.dma_en && gv_ready
           dmar := gv_ready && s.dma_en }

/-- One iteration of the `do { switch ... } while (!get_out)` loop of
`hp9845b_state::advance_gv_fsm`.  Returns the new state and the `get_out`
flag.  `avail` tells whether graphic memory is available now
(`time_to_gv_mem_availability() == 0`); when it is not, the one-shot timer
is armed (`m_gv_timer->adjust(...)`) and the loop exits. -/
def fsm_iter_b (ds trigger avail : Bool) (s : BState) : BState × Bool :=
  let act_trig := trigger || s.dma_en || !s.cmd.testBit 2
  match s.fsm with
  | 0 =>  -- GV_STAT_WAIT_DS_0
    if s.cmd &&& 0xc == 0xc then ({ s with fsm := GV_STAT_WAIT_MEM_0 }, false)
    else if ds then ({ s with fsm := GV_STAT_WAIT_TRIG_0 }, false)
    else (s, true)
  | 1 =>  -- GV_STAT_WAIT_TRIG_0
    if act_trig then
      if s.cmd.testBit 3 then
        ({ s with io_counter := cpl16 s.data_w &&& GVIDEO_ADDR_MASK
                  fsm := GV_STAT_WAIT_DS_2 }, false)
      else if s.cmd.testBit 2 then
        ({ s with cursor_x := (cpl16 s.cursor_w >>> 6) &&& 0x3ff
                  fsm := GV_STAT_WAIT_DS_0 }, false)
      else
        ({ s with cursor_y := (cpl16 s.cursor_w >>> 6) &&& 0x1ff
                  cursor_gc := !s.cmd.testBit 1
                  cursor_fs := s.cmd.testBit 0
                  fsm := GV_STAT_WAIT_DS_0 }, false)
    else (s, true)
  | 2 =>  -- GV_STAT_WAIT_MEM_0
    if avail then
      ({ s with data_r := s.mem s.io_counter
                io_counter := (s.io_counter + 1) &&& GVIDEO_ADDR_MASK
                fsm := GV_STAT_WAIT_DS_1 }, false)
    else ({ s with timer := true }, true)
  | 3 =>  -- GV_STAT_WAIT_DS_1
    if ds then ({ s with fsm := GV_STAT_WAIT_MEM_0 }, false) else (s, true)
  | 4 =>  -- GV_STAT_WAIT_DS_2
    if ds then ({ s with fsm := GV_STAT_WAIT_TRIG_1 }, false) else (s, true)
  | 5 =>  -- GV_STAT_WAIT_TRIG_1
    if act_trig then
      if s.cmd.testBit 1 then
        ({ s with data_w := 0, fsm := GV_STAT_WAIT_MEM_1 }, false)
      else if s.cmd.testBit 0 then
        ({ s with fsm := GV_STAT_WAIT_MEM_2 }, false)
      else
        ({ s with fsm := GV_STAT_WAIT_MEM_1 }, false)
    else (s, true)
  | 6 =>  -- GV_STAT_WAIT_MEM_1
    if avail then
      ({ s with mem := updWord s.mem s.io_counter (s.data_w &&& 0xffff)
                io_counter := (s.io_counter + 1) &&& GVIDEO_ADDR_MASK
                fsm := GV_STAT_WAIT_DS_2 }, false)
    else ({ s with timer := true }, true)
  | 7 =>  -- GV_STAT_WAIT_MEM_2
    if avail then
      let mask := 0x8000 >>> (s.data_w &&& 0xf)
      let w := if s.data_w.testBit 15 then (s.mem s.io_counter ||| mask) &&& 0xffff
               else s.mem s.io_counter &&& (0xffff ^^^ mask)
      ({ s with mem := updWord s.mem s.io_counter w
                io_counter := (s.io_counter + 1) &&& GVIDEO_ADDR_MASK
                fsm := GV_STAT_WAIT_DS_0 }, false)
    else ({ s with timer := true }, true)
  | _ =>
    -- default: log "Invalid state reached" and force reset;
    -- get_out stays false, so the loop runs again from GV_STAT_RESET
    ({ s with fsm := GV_STAT_RESET }, false)

/-- The `do ... while (!get_out)` loop, bounded by fuel (the source loop
re-enters with `ds = trigger = false`; 16 iterations are more than any run
to fixpoint needs). -/
def fsm_loop_b : Nat → Bool → Bool → Bool → BState → BState
  | 0, _, _, _, s => s
  | fuel+1, ds, trigger, avail, s =>
    let r := fsm_iter_b ds trigger avail s
    if r.2 then r.1 else fsm_loop_b fuel false false avail r.1

/-- `hp9845b_state::advance_gv_fsm`: run the loop to fixpoint, then
recompute the output signals. -/
def advance_gv_fsm_b (ds trigger avail : Bool) (s : BState) : BState :=
  update_graphic_bits_b (fsm_loop_b 16 ds trigger avail s)

/-- State of the three-plane (98770A, `hp9845c_state`) graphics controller. -/
structure CState where
  fsm : Nat
  cmd : Nat
  int_en : Bool
  dma_en : Bool
  gr_en : Bool
  sk_en : Bool
  opt_en : Bool
  dsa_en : Bool
  data_w : Nat
  data_r : Nat
  io_counter : Nat
  plane : Nat
  plane_wrap : Bool
  word_x : Nat
  word_y : Nat
  memory_control : Nat
  line_type_area_fill : Nat
  lt : LineState
  music_memory : Nat
  cursor_color : Nat
  cursor_x : Nat
  cursor_y : Nat
  cursor_gc : Bool
  cursor_fs : Bool
  xpt : Nat
  ypt : Nat
  last_xpt : Nat
  last_ypt : Nat
  last_cmd : Nat
  planes : ColorPlanes
  timer : Bool
  lp_reg_cnt : Nat
  lp_en : Bool
  lp_int_en : Bool
  lp_selftest : Bool
  lp_status : Bool
  flg : Bool
  irq : Bool
  dmar : Bool

/-- Select plane `k` of the three planes (`m_graphic_mem[k]`). -/
def planeGet (pl : ColorPlanes) (k : Nat) : Nat → Nat :=
  if k = 0 then pl.plane0 else if k = 1 then pl.plane1 else pl.plane2

/-- Replace plane `k` of the three planes. -/
def planeSet (pl : ColorPlanes) (k : Nat) (m : Nat → Nat) : ColorPlanes :=
  if k = 0 then { pl with plane0 := m }
  else if k = 1 then { pl with plane1 := m }
  else { pl with plane2 := m }

/-- 16-bit subtraction `a - b` (as stored into a `uint16_t`), for
`a < 65536`. -/
def sub16 (a b : Nat) : Nat := (a + 65536 - (b &&& 0xffff)) % 65536

/-- `hp9845ct_state::update_graphic_bits`: ready when a light-pen interrupt
is pending (`lp_int_en && lp_status`) or — when the graphics controller is
enabled — when the FSM is in WAIT_DS_0 / WAIT_TRIG_0 / WAIT_DS_1 /
WAIT_DS_2 / WAIT_TRIG_1. -/
def update_graphic_bits_ct (s : CState) : CState :=
  let r0 := s.lp_int_en && s.lp_status
  let gv_ready :=
    if s.gr_en && !r0 then
      s.fsm == GV_STAT_WAIT_DS_0 || s.fsm == GV_STAT_WAIT_TRIG_0
        || s.fsm == GV_STAT_WAIT_DS_1 || s.fsm == GV_STAT_WAIT_DS_2
        || s.fsm == GV_STAT_WAIT_TRIG_1
    else r0
  { s with flg := gv_ready
           irq := s.int_en && !s.dma_en && gv_ready
           dmar := gv_ready && s.dma_en }

/-- `hp9845c_state::check_io_counter_restore`: when the active command
changed, restore the memory counter from the X/Y word position and
compensate the plane index (wrapped → plane 2, otherwise one plane back). -/
def check_io_counter_restore (s : CState) : CState :=
  if s.last_cmd ≠ s.cmd then
    let s := { s with io_counter := get_gv_mem_addr s.word_x s.word_y }
    let s :=
      if s.plane_wrap then { s with plane := 2 }
      else if s.plane > 0 then { s with plane := s.plane - 1 }
      else s
    { s with last_cmd := s.cmd }
  else s

/-- `hp9845c_state::advance_io_counter`: cycle the plane index 0 → 1 → 2;
when it overflows, either step the word address (if not yet at the last
word) and restart at plane 0, or stay saturated at plane 2. -/
def advance_io_counter (s : CState) : CState :=
  let p := s.plane + 1
  if p > 2 then
    if s.io_counter < GVIDEO_ADDR_MASK then
      { s with plane := 0, io_counter := s.io_counter + 1, plane_wrap := true }
    else
      { s with plane := 2, plane_wrap := true }
  else { s with plane := p }

/-- The inner `switch (m_gv_cmd)` of the `GV_STAT_WAIT_TRIG_0` case of
`hp9845c_state::advance_gv_fsm`: apply a single-word parameter command. -/
def apply_parameter (s : CState) : CState :=
  match s.cmd with
  | 0x8 =>  -- load X I/O address
    let wx := cpl16 s.data_w &&& 0x3f
    { s with word_x := wx
             io_counter := get_gv_mem_addr wx s.word_y
             plane := 0, plane_wrap := false }
  | 0x9 =>  -- load Y I/O address
    let wy := cpl16 s.data_w &&& 0x1ff
    { s with word_y := wy
             io_counter := get_gv_mem_addr s.word_x wy
             plane := 0, plane_wrap := false }
  | 0xa =>  -- load memory control
    { s with memory_control := s.data_w &&& 0x7f }
  | 0xb =>  -- set line type/area fill: when bit 4 of the new value is set,
            -- reload the dash mask from the line-type table and clear the
            -- repeat count
    let ltaf := s.data_w &&& 0x1ff
    { s with line_type_area_fill := ltaf
             lt := if ltaf.testBit 4 then ⟨m_line_type.getD (ltaf &&& 0x7) 0, 0⟩
                   else s.lt }
  | 0xc =>  -- load color mask ("music memory")
    { s with music_memory := s.data_w &&& 0x1ff }
  | 0xd =>  -- load end points (Y word)
    { s with ypt := cpl16 s.data_w &&& 0x1ff }
  | 0xe =>  -- Y cursor position & color
    let cy := sub16 1073 (s.data_w >>> 6)
    { s with cursor_color := cpl16 s.data_w &&& 0x7
             cursor_y := if s.cursor_fs then sub16 cy 8 else cy }
  | 0xf =>  -- X cursor position & type
    let fs := s.data_w.testBit 0
    let cx := sub16 ((s.data_w >>> 6) &&& 0x3ff) 42
    { s with cursor_fs := fs
             cursor_gc := s.data_w.testBit 1 || fs
             cursor_x := if fs then sub16 cx 8 else cx }
  | _ => s  -- unknown command: log only

/-- One iteration of the `do { switch ... } while (!get_out)` loop of
`hp9845c_state::advance_gv_fsm` (the `m_gv_gr_en` gate is in
`advance_gv_fsm_c`). -/
def fsm_iter_c (ds trigger avail : Bool) (s : CState) : CState × Bool :=
  -- act_trig (U73 on the vector generator board):
  -- trigger || m_gv_int_en || !BIT(m_gv_cmd, 0)
  match s.fsm with
  | 0 =>  -- GV_STAT_WAIT_DS_0 (same as GV_STAT_RESET)
    if s.cmd == 0x1 then
      -- read words command
      let s := check_io_counter_restore s
      ({ s with fsm := GV_STAT_WAIT_MEM_0, last_cmd := s.cmd }, false)
    else if ds then
      if s.cmd == 0x0 || s.cmd == 0x2 then
        -- write words & clear/set words commands
        let s := check_io_counter_restore s
        ({ s with fsm := GV_STAT_WAIT_TRIG_1, last_cmd := s.cmd }, false)
      else
        ({ s with fsm := GV_STAT_WAIT_TRIG_0, last_cmd := s.cmd }, false)
    else (s, true)
  | 1 =>  -- GV_STAT_WAIT_TRIG_0: apply single-word parameter
    if trigger || s.int_en || !s.cmd.testBit 0 then
      let s := apply_parameter s
      if s.cmd == 0xd then
        ({ s with fsm := GV_STAT_WAIT_DS_2 }, false)
      else
        ({ s with fsm := GV_STAT_WAIT_DS_0 }, true)
    else (s, true)
  | 2 =>  -- GV_STAT_WAIT_MEM_0: read one word
    if avail then
      let s := { s with data_r := planeGet s.planes s.plane s.io_counter }
      let s := advance_io_counter s
      ({ s with fsm := GV_STAT_WAIT_DS_1 }, false)
    else ({ s with timer := true }, true)
  | 3 =>  -- GV_STAT_WAIT_DS_1
    if ds then ({ s with fsm := GV_STAT_WAIT_MEM_0 }, false) else (s, true)
  | 4 =>  -- GV_STAT_WAIT_DS_2
    if ds then ({ s with fsm := GV_STAT_WAIT_TRIG_1 }, false) else (s, true)
  | 5 =>  -- GV_STAT_WAIT_TRIG_1
    if trigger || s.int_en || !s.cmd.testBit 0 then
      if s.cmd == 0xd then
        -- load endpoints command: m_gv_xpt = ~data & 0x3ff, then bit 10
        -- selects draw vector vs. move
        if s.data_w.testBit 10 then
          ({ s with xpt := cpl16 s.data_w &&& 0x3ff
                    fsm := GV_STAT_WAIT_MEM_2 }, false)
        else
          ({ s with xpt := cpl16 s.data_w &&& 0x3ff
                    last_xpt := cpl16 s.data_w &&& 0x3ff, last_ypt := s.ypt
                    fsm := GV_STAT_WAIT_DS_0 }, false)
      else if s.cmd == 0x2 then
        let w := if s.memory_control.testBit (s.plane + 3) then 0xffff else 0
        ({ s with data_w := w, fsm := GV_STAT_WAIT_MEM_1 }, false)
      else if s.cmd == 0x0 then
        ({ s with fsm := GV_STAT_WAIT_MEM_1 }, false)
      else (s, false)  -- no matching command: loop again with same state
    else (s, true)
  | 6 =>  -- GV_STAT_WAIT_MEM_1: write one word (only when the write-words
          -- command is active or the plane is enabled in memory control)
    if avail then
      let pls :=
        if s.cmd == 0x0 || s.memory_control.testBit s.plane then
          planeSet s.planes s.plane (updWord (planeGet s.planes s.plane)
            s.io_counter (s.data_w &&& 0xffff))
        else s.planes
      let s2 := advance_io_counter { s with planes := pls }
      ({ s2 with fsm := GV_STAT_WAIT_DS_2 }, false)
    else ({ s with timer := true }, true)
  | 7 =>  -- GV_STAT_WAIT_MEM_2: vector generator
    if avail then
      -- bit 4 of line type/area fill selects draw vector (with endpoint
      -- normalization) vs. pattern fill
      let r : ColorPlanes × LineState :=
        if s.line_type_area_fill.testBit 4 then
          let p := if s.xpt > s.last_xpt then
              (s.last_xpt, s.last_ypt, s.xpt, s.ypt)
            else (s.xpt, s.ypt, s.last_xpt, s.last_ypt)
          let d := draw_line s.memory_control s.line_type_area_fill
            p.1 p.2.1 p.2.2.1 p.2.2.2 s.planes s.lt
          (d.2.1, d.2.2)
        else
          ((pattern_fill s.memory_control s.line_type_area_fill
            s.planes s.xpt s.ypt s.last_xpt s.last_ypt).2, s.lt)
      ({ s with planes := r.1, lt := r.2
                last_xpt := s.xpt, last_ypt := s.ypt
                fsm := GV_STAT_WAIT_DS_0 }, false)
    else ({ s with timer := true }, true)
  | _ =>
    -- default: log "Invalid state reached" and force reset;
    -- get_out stays false, so the loop runs again from GV_STAT_RESET
    ({ s with fsm := GV_STAT_RESET }, false)

/-- The `do ... while (!get_out)` loop of the color variant, fuel-bounded. -/
def fsm_loop_c : Nat → Bool → Bool → Bool → CState → CState
  | 0, _, _, _, s => s
  | fuel+1, ds, trigger, avail, s =>
    let r := fsm_iter_c ds trigger avail s
    if r.2 then r.1 else fsm_loop_c fuel false false avail r.1

/-- `hp9845c_state::advance_gv_fsm`: an early return when the graphics
controller is disabled, otherwise run the loop to fixpoint and recompute
the output signals. -/
def advance_gv_fsm_c (ds trigger avail : Bool) (s : CState) : CState :=
  if !s.gr_en then s
  else update_graphic_bits_ct (fsm_loop_c 16 ds trigger avail s)

/-- `hp9845ct_state::lp_r5_w`: latch the light-pen register counter and
enables, then recompute the output signals. -/
def lp_r5_w (data : Nat) (s : CState) : CState :=
  let s := { s with lp_reg_cnt := data &&& 7
                    lp_en := (data &&& 0x700) == 0x400
                    lp_int_en := (data &&& 0x500) == 0x400 }
  let s := { s with lp_selftest := s.lp_en && s.lp_reg_cnt == 7 }
  update_graphic_bits_ct s

/-- The R5 (command register) case of `hp9845c_state::graphic_w`: latch the
command and enable bits, force the FSM to RESET when bit 5 of the data is
set, run the FSM, then process the light-pen part of the write. -/
def graphic_w_r5_c (data : Nat) (avail : Bool) (s : CState) : CState :=
  let s := { s with cmd := data &&& 0xf
                    dma_en := data.testBit 6
                    int_en := data.testBit 7
                    gr_en := data.testBit 8
                    sk_en := data.testBit 9
                    opt_en := data.testBit 11
                    dsa_en := data.testBit 12 }
  let s := if data.testBit 5 then { s with fsm := GV_STAT_RESET } else s
  let s := advance_gv_fsm_c false false avail s
  lp_r5_w data s

/-! ## C6: invalid FSM states are never left active -/

lemma fsm_iter_b_fsm_le (ds trigger avail : Bool) (s : BState) :
    (fsm_iter_b ds trigger avail s).1.fsm ≤ 7 := by
  unfold fsm_iter_b
  dsimp only [GV_STAT_RESET, GV_STAT_WAIT_DS_0, GV_STAT_WAIT_TRIG_0,
    GV_STAT_WAIT_MEM_0, GV_STAT_WAIT_DS_1, GV_STAT_WAIT_DS_2,
    GV_STAT_WAIT_TRIG_1, GV_STAT_WAIT_MEM_1, GV_STAT_WAIT_MEM_2]
  split <;> (try split_ifs) <;> simp_all

lemma fsm_loop_b_fsm_le (fuel : Nat) (ds trigger avail : Bool) (s : BState)
    (h : s.fsm ≤ 7) : (fsm_loop_b fuel ds trigger avail s).fsm ≤ 7 := by
  induction fuel generalizing ds trigger s with
  | zero => exact h
  | succ fuel ih =>
    rw [fsm_loop_b]
    split
    · exact fsm_iter_b_fsm_le ds trigger avail s
    · exact ih false false _ (fsm_iter_b_fsm_le ds trigger avail s)

lemma fsm_iter_c_fsm_le (ds trigger avail : Bool) (s : CState) :
    (fsm_iter_c ds trigger avail s).1.fsm ≤ 7 := by
  unfold fsm_iter_c
  dsimp only [GV_STAT_RESET, GV_STAT_WAIT_DS_0, GV_STAT_WAIT_TRIG_0,
    GV_STAT_WAIT_MEM_0, GV_STAT_WAIT_DS_1, GV_STAT_WAIT_DS_2,
    GV_STAT_WAIT_TRIG_1, GV_STAT_WAIT_MEM_1, GV_STAT_WAIT_MEM_2]
  split <;> (try split_ifs) <;> simp_all

lemma fsm_loop_c_fsm_le (fuel : Nat) (ds trigger avail : Bool) (s : CState)
    (h : s.fsm ≤ 7) : (fsm_loop_c fuel ds trigger avail s).fsm ≤ 7 := by
  induction fuel generalizing ds trigger s with
  | zero => exact h
  | succ fuel ih =>
    rw [fsm_loop_c]
    split
    · exact fsm_iter_c_fsm_le ds trigger avail s
    · exact ih false false _ (fsm_iter_c_fsm_le ds trigger avail s)

lemma advance_gv_fsm_b_fsm_le (ds trigger avail : Bool) (s : BState) :
    (advance_gv_fsm_b ds trigger avail s).fsm ≤ 7 := by
  show (update_graphic_bits_b (fsm_loop_b 16 ds trigger avail s)).fsm ≤ 7
  have h16 : (16 : Nat) = 15 + 1 := rfl
  rw [update_graphic_bits_b, h16, fsm_loop_b]
  split
  · exact fsm_iter_b_fsm_le ds trigger avail s
  · exact fsm_loop_b_fsm_le 15 false false avail _
      (fsm_iter_b_fsm_le ds trigger avail s)

/-- C6: on both variants, an invalid FSM state value is never left active
after an FSM step.  First two conjuncts: after any `advance_gv_fsm` run
(with the graphics controller enabled, on the color variant — otherwise the
color variant's step returns without touching the FSM), the state is in the
documented set {RESET/WAIT_DS_0, ..., WAIT_MEM_2} = {0..7}.  Last two
conjuncts: one pass of the switch over any state value outside the
documented set (modelled as `fsm + 8`) hits the `default` case and forces
the state to RESET before the step completes. -/
theorem invalid_fsm_state_never_survives
    (ds trigger avail ds2 trigger2 avail2 : Bool) (sb : BState) (sc : CState) :
    (advance_gv_fsm_b ds trigger avail sb).fsm ≤ 7
  ∧ (advance_gv_fsm_c ds2 trigger2 avail2 { sc with gr_en := true }).fsm ≤ 7
  ∧ (fsm_iter_b ds trigger avail { sb with fsm := sb.fsm + 8 }).1.fsm
      = GV_STAT_RESET
  ∧ (fsm_iter_c ds2 trigger2 avail2 { sc with fsm := sc.fsm + 8 }).1.fsm
      = GV_STAT_RESET := by
  refine ⟨advance_gv_fsm_b_fsm_le ds trigger avail sb, ?_, ?_, ?_⟩
  · show (update_graphic_bits_ct (fsm_loop_c 16 ds2 trigger2 avail2 _)).fsm ≤ 7
    have h16 : (16 : Nat) = 15 + 1 := rfl
    rw [update_graphic_bits_ct, h16, fsm_loop_c]
    split
    · exact fsm_iter_c_fsm_le ds2 trigger2 avail2 _
    · exact fsm_loop_c_fsm_le 15 false false avail2 _
        (fsm_iter_c_fsm_le ds2 trigger2 avail2 _)
  · unfold fsm_iter_b
    split <;> simp_all [GV_STAT_RESET]
  · unfold fsm_iter_c
    split <;> simp_all [GV_STAT_RESET]

/-! ## C7: RESET collapses the FSM but does not cancel the armed timer -/

lemma check_io_counter_restore_timer (s : CState) :
    (check_io_counter_restore s).timer = s.timer := by
  unfold check_io_counter_restore
  by_cases h1 : s.last_cmd ≠ s.cmd
  · by_cases h2 : s.plane_wrap
    · simp [h1, h2]
    · by_cases h3 : s.plane > 0 <;> simp [h1, h2, h3]
  · simp [h1]

lemma advance_io_counter_timer (s : CState) :
    (advance_io_counter s).timer = s.timer := by
  unfold advance_io_counter
  by_cases h1 : s.plane + 1 > 2
  · by_cases h2 : s.io_counter < GVIDEO_ADDR_MASK <;> simp [h1, h2]
  · simp [h1]

lemma apply_parameter_timer (s : CState) :
    (apply_parameter s).timer = s.timer := by
  unfold apply_parameter
  split <;> rfl

/-- No branch of the FSM switch ever disarms the one-shot wake-up timer:
the only timer operation in `advance_gv_fsm` is `m_gv_timer->adjust(...)`. -/
lemma fsm_iter_c_timer_mono (ds trigger avail : Bool) (s : CState)
    (h : s.timer = true) : (fsm_iter_c ds trigger avail s).1.timer = true := by
  unfold fsm_iter_c
  split <;> (try split) <;>
    simp_all [check_io_counter_restore_timer, advance_io_counter_timer,
      apply_parameter_timer, apply_ite CState.timer,
      apply_ite (Prod.fst : CState × Bool → CState)]

lemma fsm_loop_c_timer_mono (fuel : Nat) (ds trigger avail : Bool)
    (s : CState) (h : s.timer = true) :
    (fsm_loop_c fuel ds trigger avail s).timer = true := by
  induction fuel generalizing ds trigger s with
  | zero => exact h
  | succ fuel ih =>
    rw [fsm_loop_c]
    split
    · exact fsm_iter_c_timer_mono ds trigger avail s h
    · exact ih false false _ (fsm_iter_c_timer_mono ds trigger avail s h)

lemma advance_gv_fsm_c_timer_mono (ds trigger avail : Bool) (s : CState)
    (h : s.timer = true) :
    (advance_gv_fsm_c ds trigger avail s).timer = true := by
  unfold advance_gv_fsm_c update_graphic_bits_ct
  split
  · exact h
  · simp [fsm_loop_c_timer_mono 16 ds trigger avail s h]

/-- A concrete controller state for the C7 scenario: graphics enabled,
write-words command in flight, FSM waiting for memory in WAIT_MEM_1. -/
def c7_s0 : CState :=
  { fsm := GV_STAT_WAIT_MEM_1, cmd := 0, int_en := false, dma_en := false
    gr_en := true, sk_en := false, opt_en := false, dsa_en := false
    data_w := 0, data_r := 0, io_counter := 0, plane := 0
    plane_wrap := false, word_x := 0, word_y := 0, memory_control := 0
    line_type_area_fill := 0, lt := ⟨0xffff, 0⟩, music_memory := 0
    cursor_color := 7, cursor_x := 0, cursor_y := 0, cursor_gc := false
    cursor_fs := false, xpt := 0, ypt := 0, last_xpt := 0, last_ypt := 0
    last_cmd := 0, planes := zeroPlanes, timer := false, lp_reg_cnt := 0
    lp_en := false, lp_int_en := false, lp_selftest := false
    lp_status := false, flg := false, irq := false, dmar := false }

/-- C7, counterexample to the claim as stated: with the FSM in WAIT_MEM_1
and memory not available, the FSM step arms the wake-up timer; a subsequent
R5 write with the reset bit (bit 5) set — data `0x123`: command 3, reset
bit, graphics enabled — collapses the FSM to RESET but does NOT cancel the
pending timer: no code path ever cancels `m_gv_timer`. -/
theorem r5_reset_leaves_timer_armed :
    (advance_gv_fsm_c false false false c7_s0).timer = true
  ∧ (graphic_w_r5_c 0x123 false
      (advance_gv_fsm_c false false false c7_s0)).fsm = GV_STAT_RESET
  ∧ (graphic_w_r5_c 0x123 false
      (advance_gv_fsm_c false false false c7_s0)).timer = true :=
  ⟨rfl, rfl, rfl⟩

/-- C7, amended: an R5 write with the reset bit set immediately collapses
the FSM to RESET (the state machine is then re-run for the newly loaded
command; when that command is not the self-starting read command 0x1, the
FSM is still in RESET when the write completes), and a pending
Memory-Arbiter wake-up timer is NOT cancelled: it stays armed. -/
theorem r5_reset_collapses_fsm_but_timer_stays
    (data : Nat) (avail : Bool) (s : CState) :
    (data &&& 0xf ≠ 0x1 →
      (graphic_w_r5_c (data ||| 0x20) avail s).fsm = GV_STAT_RESET)
  ∧ (s.timer = true →
      (graphic_w_r5_c (data ||| 0x20) avail s).timer = true) := by
  have hb5 : (data ||| 0x20).testBit 5 = true := by
    rw [Nat.testBit_or, show Nat.testBit 0x20 5 = true from rfl, Bool.or_true]
  have hnib : (data ||| 0x20) &&& 0xf = data &&& 0xf := by
    rw [Nat.and_distrib_right, show (0x20 : Nat) &&& 0xf = 0 from rfl,
      Nat.or_zero]
  have hb8 : (data ||| 0x20).testBit 8 = data.testBit 8 := by
    rw [Nat.testBit_or, show Nat.testBit 0x20 8 = false from rfl,
      Bool.or_false]
  constructor
  · intro hcmd
    unfold graphic_w_r5_c lp_r5_w advance_gv_fsm_c update_graphic_bits_ct
    simp only [hb5, hnib, hb8, if_true]
    cases hg : data.testBit 8
    · simp [hg]
    · simp only [hg, Bool.not_true, Bool.false_eq_true, if_false]
      have h16 : (16 : Nat) = 15 + 1 := rfl
      rw [h16, fsm_loop_c]
      unfold fsm_iter_c
      dsimp only [GV_STAT_RESET]
      simp [hcmd]
  · intro ht
    have hlp : ∀ (d : Nat) (t : CState), (lp_r5_w d t).timer = t.timer := by
      intro d t
      simp [lp_r5_w, update_graphic_bits_ct]
    unfold graphic_w_r5_c
    rw [hlp]
    apply advance_gv_fsm_c_timer_mono
    split_ifs
    all_goals simp [ht]

/-- The C7 scenario state with the wake-up timer already armed. -/
def c7_s1 : CState := { c7_s0 with timer := true }

/-- Witness for the amended C7 theorem: data `0x103 ||| 0x20` (command 3,
reset bit, graphics enabled) on a state with the timer armed. -/
theorem r5_reset_collapses_fsm_but_timer_stays_witness :
    (graphic_w_r5_c (0x103 ||| 0x20) false c7_s1).fsm = GV_STAT_RESET
  ∧ (graphic_w_r5_c (0x103 ||| 0x20) false c7_s1).timer = true :=
  ⟨(r5_reset_collapses_fsm_but_timer_stays 0x103 false c7_s1).1 (by decide),
   (r5_reset_collapses_fsm_but_timer_stays 0x103 false c7_s1).2 rfl⟩

/-! ## C4: the ready / interrupt-request outputs -/

/-- Output characterization of `hp9845b_state::update_graphic_bits`. -/
lemma update_graphic_bits_b_outputs (t : BState) :
    (update_graphic_bits_b t).flg
        = (t.fsm == GV_STAT_WAIT_DS_0 || t.fsm == GV_STAT_WAIT_DS_1
            || t.fsm == GV_STAT_WAIT_DS_2)
  ∧ (update_graphic_bits_b t).irq
        = (t.int_en && !t.dma_en && (update_graphic_bits_b t).flg)
  ∧ (update_graphic_bits_b t).dmar
        = ((update_graphic_bits_b t).flg && t.dma_en) := by
  refine ⟨rfl, rfl, rfl⟩

/-- Output characterization of `hp9845ct_state::update_graphic_bits`:
the `if (gr_en && !ready) ready = fsm-ready` form is the disjunction of the
light-pen service request and the gated FSM-ready condition. -/
lemma update_graphic_bits_ct_outputs (t : CState) :
    (update_graphic_bits_ct t).flg
        = ((t.lp_int_en && t.lp_status)
            || (t.gr_en && (t.fsm == GV_STAT_WAIT_DS_0
                  || t.fsm == GV_STAT_WAIT_TRIG_0 || t.fsm == GV_STAT_WAIT_DS_1
                  || t.fsm == GV_STAT_WAIT_DS_2
                  || t.fsm == GV_STAT_WAIT_TRIG_1)))
  ∧ (update_graphic_bits_ct t).irq
        = (t.int_en && !t.dma_en && (update_graphic_bits_ct t).flg)
  ∧ (update_graphic_bits_ct t).dmar
        = ((update_graphic_bits_ct t).flg && t.dma_en) := by
  unfold update_graphic_bits_ct
  cases h0 : t.lp_int_en && t.lp_status <;> cases hg : t.gr_en <;>
    simp [h0, hg]

/-- A concrete controller state for the C4 counterexample: graphics enabled,
FSM in WAIT_MEM_0, light-pen interrupt enabled and pending. -/
def c4_s0 : CState :=
  { c7_s0 with fsm := GV_STAT_WAIT_MEM_0, int_en := true
               lp_int_en := true, lp_status := true }

/-- C4, counterexample to the claim as stated: on the color variant, after a
run of the FSM (memory unavailable, so the FSM stays in WAIT_MEM_0), the
ready/flag output is asserted although the FSM is NOT in any of the
documented ready states: the light-pen service request
(`lp_int_en && lp_status`) asserts ready regardless of the FSM state. -/
theorem ready_asserted_outside_ready_states :
    (advance_gv_fsm_c false false false c4_s0).flg = true
  ∧ (advance_gv_fsm_c false false false c4_s0).fsm = GV_STAT_WAIT_MEM_0
  ∧ ((advance_gv_fsm_c false false false c4_s0).fsm == GV_STAT_WAIT_DS_0
      || (advance_gv_fsm_c false false false c4_s0).fsm == GV_STAT_WAIT_TRIG_0
      || (advance_gv_fsm_c false false false c4_s0).fsm == GV_STAT_WAIT_DS_1
      || (advance_gv_fsm_c false false false c4_s0).fsm == GV_STAT_WAIT_DS_2
      || (advance_gv_fsm_c false false false c4_s0).fsm == GV_STAT_WAIT_TRIG_1)
      = false :=
  ⟨rfl, rfl, rfl⟩

/-- C4, amended: after every `advance_gv_fsm` run the outputs satisfy: on the
monochrome variant, ready/flag holds iff the FSM is in
WAIT_DS_0/WAIT_DS_1/WAIT_DS_2; on the color variant (with the graphics
controller enabled — otherwise the FSM step returns without recomputing
outputs), ready/flag holds iff a light-pen service request is pending
(`lp_int_en && lp_status`) or the FSM is in WAIT_DS_0/WAIT_TRIG_0/WAIT_DS_1/
WAIT_DS_2/WAIT_TRIG_1; on both, the interrupt request equals
`ready && interrupt-enabled && !dma-enabled`. -/
theorem ready_and_irq_after_fsm_run
    (ds trigger avail ds2 trigger2 avail2 : Bool) (sb : BState) (sc : CState) :
    ((advance_gv_fsm_b ds trigger avail sb).flg
        = ((advance_gv_fsm_b ds trigger avail sb).fsm == GV_STAT_WAIT_DS_0
            || (advance_gv_fsm_b ds trigger avail sb).fsm == GV_STAT_WAIT_DS_1
            || (advance_gv_fsm_b ds trigger avail sb).fsm == GV_STAT_WAIT_DS_2))
  ∧ ((advance_gv_fsm_b ds trigger avail sb).irq
        = ((advance_gv_fsm_b ds trigger avail sb).int_en
            && !(advance_gv_fsm_b ds trigger avail sb).dma_en
            && (advance_gv_fsm_b ds trigger avail sb).flg))
  ∧ ((advance_gv_fsm_c ds2 trigger2 avail2 { sc with gr_en := true }).flg
        = (((advance_gv_fsm_c ds2 trigger2 avail2
                { sc with gr_en := true }).lp_int_en
              && (advance_gv_fsm_c ds2 trigger2 avail2
                { sc with gr_en := true }).lp_status)
            || ((advance_gv_fsm_c ds2 trigger2 avail2
                  { sc with gr_en := true }).gr_en
                && ((advance_gv_fsm_c ds2 trigger2 avail2
                      { sc with gr_en := true }).fsm == GV_STAT_WAIT_DS_0
                  || (advance_gv_fsm_c ds2 trigger2 avail2
                      { sc with gr_en := true }).fsm == GV_STAT_WAIT_TRIG_0
                  || (advance_gv_fsm_c ds2 trigger2 avail2
                      { sc with gr_en := true }).fsm == GV_STAT_WAIT_DS_1
                  || (advance_gv_fsm_c ds2 trigger2 avail2
                      { sc with gr_en := true }).fsm == GV_STAT_WAIT_DS_2
                  || (advance_gv_fsm_c ds2 trigger2 avail2
                      { sc with gr_en := true }).fsm == GV_STAT_WAIT_TRIG_1))))
  ∧ ((advance_gv_fsm_c ds2 trigger2 avail2 { sc with gr_en := true }).irq
        = ((advance_gv_fsm_c ds2 trigger2 avail2 { sc with gr_en := true }).int_en
            && !(advance_gv_fsm_c ds2 trigger2 avail2
                { sc with gr_en := true }).dma_en
            && (advance_gv_fsm_c ds2 trigger2 avail2
                { sc with gr_en := true }).flg)) := by
  refine ⟨rfl, rfl, ?_, ?_⟩
  · exact (update_graphic_bits_ct_outputs
      (fsm_loop_c 16 ds2 trigger2 avail2 { sc with gr_en := true })).1
  · exact (update_graphic_bits_ct_outputs
      (fsm_loop_c 16 ds2 trigger2 avail2 { sc with gr_en := true })).2.1

/-! ## C9: the I/O cursor invariant -/

/-- The I/O cursor invariant of the color variant: the plane index is one of
{0, 1, 2} and the word address never exceeds the plane address mask. -/
def IoInv (s : CState) : Prop :=
  s.plane ≤ 2 ∧ s.io_counter ≤ GVIDEO_ADDR_MASK

lemma get_gv_mem_addr_le (x y : Nat) :
    get_gv_mem_addr x y ≤ GVIDEO_ADDR_MASK :=
  Nat.and_le_right

lemma advance_io_counter_inv (s : CState) (h : IoInv s) :
    IoInv (advance_io_counter s) := by
  obtain ⟨h1, h2⟩ := h
  unfold advance_io_counter IoInv
  by_cases hp : s.plane + 1 > 2
  · by_cases hio : s.io_counter < GVIDEO_ADDR_MASK <;> simp [hp, hio] <;> omega
  · simp [hp]
    omega

lemma check_io_counter_restore_inv (s : CState) (h : IoInv s) :
    IoInv (check_io_counter_restore s) := by
  obtain ⟨h1, h2⟩ := h
  unfold check_io_counter_restore IoInv
  by_cases hc : s.last_cmd ≠ s.cmd
  · by_cases hw : s.plane_wrap
    · simp [hc, hw, get_gv_mem_addr_le]
    · by_cases hp : s.plane > 0 <;>
        simp [hc, hw, hp, get_gv_mem_addr_le] <;> omega
  · simp [hc]
    exact ⟨h1, h2⟩

lemma apply_parameter_inv (s : CState) (h : IoInv s) :
    IoInv (apply_parameter s) := by
  obtain ⟨h1, h2⟩ := h
  unfold apply_parameter
  split <;>
    first
      | exact ⟨Nat.zero_le 2, get_gv_mem_addr_le _ _⟩
      | exact ⟨h1, h2⟩

lemma apply_parameter_cmd (s : CState) : (apply_parameter s).cmd = s.cmd := by
  unfold apply_parameter
  split <;> rfl

lemma fsm_iter_c_inv (ds trigger avail : Bool) (s : CState) (h : IoInv s) :
    IoInv (fsm_iter_c ds trigger avail s).1 := by
  obtain ⟨h1, h2⟩ := h
  unfold fsm_iter_c
  split
  · -- WAIT_DS_0
    split_ifs <;>
      first
        | exact check_io_counter_restore_inv s ⟨h1, h2⟩
        | exact ⟨h1, h2⟩
  · -- WAIT_TRIG_0
    by_cases hat : (trigger || s.int_en || !s.cmd.testBit 0) = true
    · rw [if_pos hat]
      by_cases hc : ((apply_parameter s).cmd == 0xd) = true
      · rw [if_pos hc]
        exact apply_parameter_inv s ⟨h1, h2⟩
      · rw [if_neg hc]
        exact apply_parameter_inv s ⟨h1, h2⟩
    · rw [if_neg hat]
      exact ⟨h1, h2⟩
  · -- WAIT_MEM_0
    split_ifs
    · exact advance_io_counter_inv _ ⟨h1, h2⟩
    · exact ⟨h1, h2⟩
  · -- WAIT_DS_1
    split_ifs <;> exact ⟨h1, h2⟩
  · -- WAIT_DS_2
    split_ifs <;> exact ⟨h1, h2⟩
  · -- WAIT_TRIG_1
    split_ifs <;> exact ⟨h1, h2⟩
  · -- WAIT_MEM_1
    split_ifs <;>
      first
        | exact advance_io_counter_inv _ ⟨h1, h2⟩
        | exact ⟨h1, h2⟩
  · -- WAIT_MEM_2
    split_ifs <;> exact ⟨h1, h2⟩
  · -- default
    exact ⟨h1, h2⟩

lemma fsm_loop_c_inv (fuel : Nat) (ds trigger avail : Bool) (s : CState)
    (h : IoInv s) : IoInv (fsm_loop_c fuel ds trigger avail s) := by
  induction fuel generalizing ds trigger s with
  | zero => exact h
  | succ fuel ih =>
    rw [fsm_loop_c]
    split
    · exact fsm_iter_c_inv ds trigger avail s h
    · exact ih false false _ (fsm_iter_c_inv ds trigger avail s h)

lemma advance_gv_fsm_c_inv (ds trigger avail : Bool) (s : CState)
    (h : IoInv s) : IoInv (advance_gv_fsm_c ds trigger avail s) := by
  unfold advance_gv_fsm_c update_graphic_bits_ct
  split
  · exact h
  · exact fsm_loop_c_inv 16 ds trigger avail s h

/-- C9: invariant of the color-variant I/O cursor.  Conjuncts: the invariant
(plane ∈ {0,1,2} and address ≤ mask) is preserved by `advance_io_counter`,
by `check_io_counter_restore`, and by any full `advance_gv_fsm` run (which
covers the load X/Y I/O address parameter commands); the load X/Y commands
(FSM in WAIT_TRIG_0 with command 8 or 9) establish it outright; and at the
last word of a plane with plane index 2, `advance_io_counter` saturates:
the plane index stays 2 and the address is unchanged instead of wrapping
to 0. -/
theorem io_cursor_invariant (ds trigger avail : Bool) (s : CState) :
    (IoInv s → IoInv (advance_io_counter s))
  ∧ (IoInv s → IoInv (check_io_counter_restore s))
  ∧ (IoInv s → IoInv (advance_gv_fsm_c ds trigger avail s))
  ∧ (IoInv (fsm_iter_c ds true avail
      { s with fsm := GV_STAT_WAIT_TRIG_0, cmd := 0x8 }).1)
  ∧ (IoInv (fsm_iter_c ds true avail
      { s with fsm := GV_STAT_WAIT_TRIG_0, cmd := 0x9 }).1)
  ∧ (s.plane = 2 → s.io_counter = GVIDEO_ADDR_MASK →
      (advance_io_counter s).plane = 2
      ∧ (advance_io_counter s).io_counter = s.io_counter) := by
  refine ⟨advance_io_counter_inv s, check_io_counter_restore_inv s,
    advance_gv_fsm_c_inv ds trigger avail s, ?_, ?_, ?_⟩
  · unfold fsm_iter_c apply_parameter
    simp [GV_STAT_WAIT_TRIG_0, IoInv, get_gv_mem_addr_le]
  · unfold fsm_iter_c apply_parameter
    simp [GV_STAT_WAIT_TRIG_0, IoInv, get_gv_mem_addr_le]
  · intro hp hio
    unfold advance_io_counter
    rw [hp, hio]
    norm_num

/-- A concrete state at the last word of the last plane. -/
def c9_s0 : CState := { c7_s0 with plane := 2, io_counter := GVIDEO_ADDR_MASK }

/-- Witness for C9 at a concrete state sitting at the last word of plane 2:
the invariant is preserved and the counter saturates. -/
theorem io_cursor_invariant_witness :
    IoInv (advance_io_counter c9_s0)
  ∧ (advance_io_counter c9_s0).plane = 2
  ∧ (advance_io_counter c9_s0).io_counter = c9_s0.io_counter :=
  ⟨(io_cursor_invariant false false false c9_s0).1 ⟨by decide, by decide⟩,
   ((io_cursor_invariant false false false c9_s0).2.2.2.2.2 rfl rfl).1,
   ((io_cursor_invariant false false false c9_s0).2.2.2.2.2 rfl rfl).2⟩

/-! ## Alpha buffer fetcher (`video_fill_buff`) and renderer blanking -/

/-- `VIDEO_BUFFER_BASE_LOW` (98770A/98780A). -/
def VIDEO_BUFFER_BASE_LOW : Nat := 0x16000

/-- `VIDEO_BUFFER_BASE_HIGH` (98750A). -/
def VIDEO_BUFFER_BASE_HIGH : Nat := 0x17000

/-- `MAX_WORD_PER_ROW`: the per-row fetch budget. -/
def MAX_WORD_PER_ROW : Nat := 220

/-- `hp9845ct_state::set_video_mar`. -/
def set_video_mar_ct (m : Nat) : Nat := (m &&& 0x1fff) ||| VIDEO_BUFFER_BASE_LOW

/-- `hp9845b_state::set_video_mar`. -/
def set_video_mar_b (m : Nat) : Nat := (m &&& 0xfff) ||| VIDEO_BUFFER_BASE_HIGH

/-- Why the `video_fill_buff` loop terminated: fetch budget exhausted, CRT
buffer end reached (ct variant only), end-of-line marker, or 80 cells
filled. -/
inductive FillExit where
  | budget
  | marEnd
  | eol
  | fullRow
  deriving DecidableEq, Repr

/-- Fetcher state of the ct (9845C/T) variant shared across rows. -/
structure CtFetch where
  mar : Nat
  load_mar : Bool
  first_mar : Bool
  graphic_sel : Bool
  alpha_sel : Bool
  deriving Repr

/-- Result of one `video_fill_buff` run of the ct variant: the row buffer
cells (char, attribute), the `full` flag, the loop exit cause, and the
updated fetcher state. -/
structure CtFillResult where
  chars : List (Nat × Nat)
  full : Bool
  why : FillExit
  fetch : CtFetch
  deriving Repr

/-- The `while (1)` loop of `hp9845ct_state::video_fill_buff`.  The fuel is
`MAX_WORD_PER_ROW - iters`: every loop iteration passes the `iters++`
check, so fuel 0 is exactly the budget-exhausted break.  The CRT-buffer-end
check (`(mar & 0x1fff) > 0x1dff`) precedes the budget check, as in the
source. -/
def ct_fill_aux (mem : Nat → Nat) :
    Nat → List (Nat × Nat) → CtFetch → CtFillResult
  | 0, acc, st =>
    if st.mar &&& 0x1fff > 0x1dff then ⟨acc, false, .marEnd, st⟩
    else ⟨acc, false, .budget, st⟩
  | fuel+1, acc, st =>
    if st.mar &&& 0x1fff > 0x1dff then ⟨acc, false, .marEnd, st⟩
    else
      -- the video word is `mem st.mar` (`mem` is pure, so reading it is
      -- repeated below instead of naming it)
      if st.load_mar then
        -- load new address into MAR (the very first word of a frame also
        -- selects the graphic/alpha display modes)
        let st1 :=
          if st.first_mar then
            { st with graphic_sel := (mem st.mar).testBit 15
                      alpha_sel := (mem st.mar).testBit 14, first_mar := false }
          else st
        ct_fill_aux mem fuel acc
          { st1 with mar := set_video_mar_ct (cpl16 (mem st.mar))
                     load_mar := false }
      else
        let st1 := { st with mar := set_video_mar_ct (st.mar + 1) }
        if mem st.mar == 0x8020 then
          -- end of line: pad the rest of the buffer with spaces
          ⟨acc ++ List.replicate (80 - acc.length) (0x20, 0), true, .eol, st1⟩
        else if mem st.mar &&& 0xc020 == 0x8000 then
          -- new word address (NWA)
          ct_fill_aux mem fuel acc { st1 with load_mar := true }
        else if mem st.mar &&& 0xc000 == 0xc000 then
          -- NOP
          ct_fill_aux mem fuel acc st1
        else
          -- fill line buffer
          if (acc ++ [(mem st.mar &&& 0xff, mem st.mar >>> 8)]).length == 80
          then ⟨acc ++ [(mem st.mar &&& 0xff, mem st.mar >>> 8)], true,
            .fullRow, st1⟩
          else ct_fill_aux mem fuel
            (acc ++ [(mem st.mar &&& 0xff, mem st.mar >>> 8)]) st1

/-- `hp9845ct_state::video_fill_buff`. -/
def ct_video_fill_buff (mem : Nat → Nat) (st : CtFetch) : CtFillResult :=
  ct_fill_aux mem MAX_WORD_PER_ROW [] st

/-- Fetcher state of the b (98750A) variant shared across rows: it parses
bytes, so it also keeps the byte toggle, the current word and the current
attribute. -/
structure BFetch where
  mar : Nat
  load_mar : Bool
  first_mar : Bool
  byte_idx : Bool
  video_word : Nat
  attr : Nat
  graphic_sel : Bool
  deriving Repr

/-- Result of one `video_fill_buff` run of the b variant. -/
structure BFillResult where
  chars : List (Nat × Nat)
  full : Bool
  why : FillExit
  fetch : BFetch
  deriving Repr

/-- Classification of one parsed byte in `hp9845b_state::video_fill_buff`:
attribute command, NWA, EOL (pad and finish full), or a normal character
(finish full at 80 cells); `inl` means the loop continues. -/
def b_parse_byte (acc : List (Nat × Nat)) (st : BFetch) (byte : Nat) :
    (List (Nat × Nat) × BFetch) ⊕ BFillResult :=
  if byte &&& 0xc0 == 0x80 then
    .inl (acc, { st with attr := byte &&& 0x1f })
  else if byte &&& 0xc1 == 0xc0 then
    .inl (acc, { st with load_mar := true, byte_idx := false })
  else if byte &&& 0xc1 == 0xc1 then
    .inr ⟨acc ++ List.replicate (80 - acc.length) (0x20, st.attr), true,
      .eol, st⟩
  else
    if (acc ++ [(byte, st.attr)]).length == 80 then
      .inr ⟨acc ++ [(byte, st.attr)], true, .fullRow, st⟩
    else .inl (acc ++ [(byte, st.attr)], st)

/-- The `while (1)` loop of `hp9845b_state::video_fill_buff`.  `iters`
counts word fetches (the budget check `iters++ >= MAX_WORD_PER_ROW` runs
only on the MSB path); the separate fuel argument decreases every loop
iteration and `2 * MAX_WORD_PER_ROW + 1` is enough for the budget check to
fire first. -/
def b_fill_aux (mem : Nat → Nat) :
    Nat → Nat → List (Nat × Nat) → BFetch → BFillResult
  | 0, _iters, acc, st => ⟨acc, false, .budget, st⟩
  | fuel+1, iters, acc, st =>
    if !st.byte_idx then
      if iters ≥ MAX_WORD_PER_ROW then ⟨acc, false, .budget, st⟩
      else
        -- the video word is `mem st.mar` (`mem` is pure)
        if st.load_mar then
          let st1 :=
            if st.first_mar then
              { st with graphic_sel := !(mem st.mar).testBit 15
                        first_mar := false }
            else st
          b_fill_aux mem fuel (iters+1) acc
            { st1 with mar := set_video_mar_b (cpl16 (mem st.mar))
                       load_mar := false, video_word := mem st.mar }
        else
          -- read a word, start parsing at the MSB
          match b_parse_byte acc
            { st with mar := set_video_mar_b (st.mar + 1)
                      byte_idx := true, video_word := mem st.mar }
            (mem st.mar >>> 8) with
          | .inl (acc1, st2) => b_fill_aux mem fuel (iters+1) acc1 st2
          | .inr r => r
    else
      -- parse the LSB of the current word
      match b_parse_byte acc { st with byte_idx := false }
        (st.video_word &&& 0xff) with
      | .inl (acc1, st2) => b_fill_aux mem fuel iters acc1 st2
      | .inr r => r

/-- `hp9845b_state::video_fill_buff`. -/
def b_video_fill_buff (mem : Nat → Nat) (st : BFetch) : BFillResult :=
  b_fill_aux mem (2 * MAX_WORD_PER_ROW + 1) 0 [] st

/-- The blanking logic of `hp9845c_state::video_render_buff` for one row:
`if (!full) m_video_blanked = true;` then the alpha region of the row is
blank iff `m_video_blanked || !m_alpha_sel`.  Returns the new
`m_video_blanked` and whether the row's alpha is blanked. -/
def render_step_c (alpha_sel blanked full : Bool) : Bool × Bool :=
  let blanked1 := blanked || !full
  (blanked1, blanked1 || !alpha_sel)

/-- Render a frame's rows: thread `m_video_blanked` through the rows' `full`
flags, collecting each row's blank decision.  A vertical-blank edge resets
`m_video_blanked` to false, so a new frame starts with `blanked = false`. -/
def render_rows_c (alpha_sel : Bool) : Bool → List Bool → List Bool
  | _, [] => []
  | blanked, f :: rest =>
    let r := render_step_c alpha_sel blanked f
    r.2 :: render_rows_c alpha_sel r.1 rest

/-! ## C10 / C5: the full flag, underrun, and frame blanking -/

lemma ct_fill_aux_full_iff (mem : Nat → Nat) :
    ∀ (fuel : Nat) (acc : List (Nat × Nat)) (st : CtFetch),
      (ct_fill_aux mem fuel acc st).full = true
        ↔ ((ct_fill_aux mem fuel acc st).why = FillExit.eol
            ∨ (ct_fill_aux mem fuel acc st).why = FillExit.fullRow) := by
  intro fuel
  induction fuel with
  | zero =>
    intro acc st
    unfold ct_fill_aux
    split_ifs <;> simp
  | succ fuel ih =>
    intro acc st
    rw [ct_fill_aux]
    split_ifs <;> first | exact ih _ _ | simp

lemma b_parse_byte_full_iff (acc : List (Nat × Nat)) (st : BFetch)
    (byte : Nat) (r : BFillResult) (h : b_parse_byte acc st byte = .inr r) :
    (r.full = true ↔ (r.why = FillExit.eol ∨ r.why = FillExit.fullRow)) := by
  unfold b_parse_byte at h
  split_ifs at h <;> (injection h with h2; (try subst h2); simp)

lemma b_fill_aux_full_iff (mem : Nat → Nat) :
    ∀ (fuel iters : Nat) (acc : List (Nat × Nat)) (st : BFetch),
      (b_fill_aux mem fuel iters acc st).full = true
        ↔ ((b_fill_aux mem fuel iters acc st).why = FillExit.eol
            ∨ (b_fill_aux mem fuel iters acc st).why = FillExit.fullRow) := by
  intro fuel
  induction fuel with
  | zero =>
    intro iters acc st
    unfold b_fill_aux
    simp
  | succ fuel ih =>
    intro iters acc st
    rw [b_fill_aux]
    split_ifs
    · simp
    · exact ih _ _ _
    · exact ih _ _ _
    · split
      · exact ih _ _ _
      · next r hr => exact b_parse_byte_full_iff _ _ _ r hr
    · split
      · exact ih _ _ _
      · next r hr => exact b_parse_byte_full_iff _ _ _ r hr

/-- C10: the `full` flag of the row buffer records "80 cells filled or
end-of-line reached", not only "end-of-line reached": on both variants,
after a `video_fill_buff` run the buffer is full iff the loop ended at an
EOL marker or at the 80th cell (in particular, 80 cells parsed before any
EOL and before budget exhaustion still mark the buffer full); and a full
row does not trigger the underrun blanking: rendering it leaves
`m_video_blanked` unchanged and blanks only if it was already set. -/
theorem full_flag_records_80_cells_or_eol :
    (∀ (mem : Nat → Nat) (st : CtFetch),
      (ct_video_fill_buff mem st).full = true
        ↔ ((ct_video_fill_buff mem st).why = FillExit.eol
            ∨ (ct_video_fill_buff mem st).why = FillExit.fullRow))
  ∧ (∀ (mem : Nat → Nat) (st : BFetch),
      (b_video_fill_buff mem st).full = true
        ↔ ((b_video_fill_buff mem st).why = FillExit.eol
            ∨ (b_video_fill_buff mem st).why = FillExit.fullRow))
  ∧ (∀ blanked : Bool, render_step_c true blanked true = (blanked, blanked)) := by
  refine ⟨fun mem st => ct_fill_aux_full_iff mem MAX_WORD_PER_ROW [] st,
    fun mem st => b_fill_aux_full_iff mem (2 * MAX_WORD_PER_ROW + 1) 0 [] st,
    fun blanked => ?_⟩
  unfold render_step_c
  simp

/-- Witness for C10: a concrete ct fetch ending at an EOL marker is marked
full. -/
theorem full_flag_records_80_cells_or_eol_witness :
    (ct_video_fill_buff (fun _ => 0x8020)
      ⟨0x16000, false, false, false, true⟩).full = true :=
  (full_flag_records_80_cells_or_eol.1 (fun _ => 0x8020)
    ⟨0x16000, false, false, false, true⟩).mpr (Or.inl rfl)

lemma render_rows_c_all_blank (alpha_sel : Bool) :
    ∀ (rows : List Bool) (j : Nat), j < rows.length →
      (render_rows_c alpha_sel true rows).getD j false = true := by
  intro rows
  induction rows with
  | nil => intro j hj; simp at hj
  | cons f rest ih =>
    intro j hj
    cases j with
    | zero => simp [render_rows_c, render_step_c]
    | succ j =>
      have := ih j (by simpa using Nat.lt_of_succ_lt_succ hj)
      simpa [render_rows_c, render_step_c] using this

lemma render_rows_c_underrun (alpha_sel : Bool) :
    ∀ (rows : List Bool) (blanked : Bool) (i j : Nat), i ≤ j →
      j < rows.length → rows.getD i true = false →
      (render_rows_c alpha_sel blanked rows).getD j false = true := by
  intro rows
  induction rows with
  | nil => intro blanked i j _ hj _; simp at hj
  | cons f rest ih =>
    intro blanked i j hij hj hful
    cases i with
    | zero =>
      have hf : f = false := by simpa using hful
      subst hf
      cases j with
      | zero => simp [render_rows_c, render_step_c]
      | succ j =>
        have hb : (render_step_c alpha_sel blanked false).1 = true := by
          simp [render_step_c]
        simp only [render_rows_c, List.getD_cons_succ]
        rw [hb]
        exact render_rows_c_all_blank alpha_sel rest j
          (by simpa using Nat.lt_of_succ_lt_succ hj)
    | succ i =>
      cases j with
      | zero => omega
      | succ j =>
        simp only [render_rows_c, List.getD_cons_succ]
        exact ih (render_step_c alpha_sel blanked f).1 i j
          (Nat.le_of_succ_le_succ hij)
          (by simpa using Nat.lt_of_succ_lt_succ hj)
          (by simpa using hful)

/-- C5: (1) when the ct Alpha Buffer Fetcher exhausts its per-row fetch
budget (without an end-of-line marker), the row buffer is left not-full;
(2) once a row's buffer is not full, the renderer blanks that row and every
subsequent row of the frame (the `m_video_blanked` latch is set and only
grows within a frame); (3) a frame started after the vertical-blank edge
(which resets `m_video_blanked`) with all rows full is not blanked. -/
theorem alpha_underrun_blanks_rest_of_frame :
    (∀ (mem : Nat → Nat) (st : CtFetch),
      (ct_video_fill_buff mem st).why = FillExit.budget →
        (ct_video_fill_buff mem st).full = false)
  ∧ (∀ (alpha_sel blanked : Bool) (rows : List Bool) (i j : Nat),
      i ≤ j → j < rows.length → rows.getD i true = false →
        (render_rows_c alpha_sel blanked rows).getD j false = true)
  ∧ (∀ (n j : Nat), j < n →
      (render_rows_c true false (List.replicate n true)).getD j true
        = false) := by
  refine ⟨fun mem st hb => ?_,
    fun alpha_sel blanked rows i j hij hj hful =>
      render_rows_c_underrun alpha_sel rows blanked i j hij hj hful,
    fun n => ?_⟩
  · rcases hfull : (ct_video_fill_buff mem st).full with _ | _
    · rfl
    · rcases (ct_fill_aux_full_iff mem MAX_WORD_PER_ROW [] st).mp hfull with
        h | h <;> rw [show ct_video_fill_buff mem st
          = ct_fill_aux mem MAX_WORD_PER_ROW [] st from rfl] at hb <;>
        rw [hb] at h <;> exact absurd h (by simp)
  · induction n with
    | zero => intro j hj; omega
    | succ n ih =>
      intro j hj
      cases j with
      | zero => simp [render_rows_c, render_step_c]
      | succ j =>
        have := ih j (Nat.lt_of_succ_lt_succ hj)
        simpa [render_rows_c, render_step_c] using this

/-- The C5 underrun scenario: a display list of NOP words (`0xf000`) never
produces an EOL marker, so the fetch budget is exhausted. -/
def c5_mem : Nat → Nat := fun _ => 0xf000

set_option maxRecDepth 4000 in
/-- Witness for C5: on the all-NOP display list the fetch exits by budget
exhaustion with the buffer not full, and concrete frames show the blanking
and its reset at vertical blank. -/
theorem alpha_underrun_blanks_rest_of_frame_witness :
    (ct_video_fill_buff c5_mem ⟨0x16000, true, true, false, true⟩).full = false
  ∧ (render_rows_c true false [true, false, true]).getD 2 false = true
  ∧ (render_rows_c true false (List.replicate 3 true)).getD 1 true = false :=
  ⟨alpha_underrun_blanks_rest_of_frame.1 c5_mem
      ⟨0x16000, true, true, false, true⟩ (by decide),
   alpha_underrun_blanks_rest_of_frame.2.1 true false [true, false, true] 1 2
      (by decide) (by decide) (by decide),
   alpha_underrun_blanks_rest_of_frame.2.2 3 1 (by decide)⟩

/-! ## C8: light-pen self-test mode -/

/-- `VIDEO_770_ALPHA_L_LIM`. -/
def VIDEO_770_ALPHA_L_LIM : Nat := 80

/-- Inputs of `hp9845ct_state::compute_lp_data`: the light-pen mode flags
and cursor position, and the pointer sample (`m_gv_lp_x`, `m_gv_lp_y`,
`m_gv_lp_sw`) captured at the vertical-blank edge. -/
structure LpInput where
  selftest : Bool
  cursor_x : Nat
  cursor_y : Nat
  interlace : Bool
  x : Nat
  y : Nat
  sw : Bool

/-- Outputs of `compute_lp_data`: the three hit registers
`m_gv_lp_data[0..2]` (YHI, XLEFT, YLO) and the window/status flags. -/
structure LpData where
  data0 : Nat
  data1 : Nat
  data2 : Nat
  xwindow : Bool
  ywindow : Bool
  status : Bool
  deriving DecidableEq, Repr

/-- `hp9845ct_state::compute_lp_data`.  Modelled on `Int` (C promotes the
`uint16_t` operands to `int`); `~v & 0x1ff` on the int `v` is
`(-v - 1) emod 512` (the `uint16_t` store of `v` wraps mod 2^16, which the
mod-512/1024 masking absorbs); the `(uint16_t)sqrt(double)` of the radicand
(an integer in [0, 81]) is `Nat.sqrt`. -/
def compute_lp_data (i : LpInput) : LpData :=
  -- m_gv_lp_status = true
  let base : LpData :=
    if i.selftest then
      let offset : Int := 57 - (VIDEO_770_ALPHA_L_LIM : Int)
      { data0 := ((-((i.cursor_y : Int) + 16) - 1) % 512).toNat
        data1 := ((-((i.cursor_x : Int) + offset) - 1) % 1024).toNat
        data2 := ((-((i.cursor_y : Int) + 32) - 1) % 512).toNat
        xwindow := true, ywindow := true, status := true }
    else
      let fov : Int := 9
      let xp : Int := i.x
      let yp : Int := i.y
      let xc : Int := ((i.cursor_x + 1) &&& 0xffff : Nat)
      let yc : Int := ((i.cursor_y + 24) &&& 0xffff : Nat)
      let xoffset : Int := 14
      let dy : Int :=
        if |xc - xp| ≤ fov then
          Int.ofNat (Nat.sqrt ((fov * fov - (xc - xp) * (xc - xp)).toNat))
        else fov
      let dx : Int :=
        if |yc - yp| ≤ fov then
          Int.ofNat (Nat.sqrt ((fov * fov - (yc - yp) * (yc - yp)).toNat))
        else 0
      let yhi : Int :=
        if yp + dy ≥ yc - 24 ∧ yp - dy ≤ yc - 24 then
          if yp - dy > yc - 24 ∨ ¬i.interlace then yp - dy else yc - 24
        else yp - fov
      let ylo : Int :=
        if yp + dy ≥ yc - 24 ∧ yp - dy ≤ yc - 24 then
          if yp + dy < yc + 24 ∨ ¬i.interlace then yp + dy else yc + 24
        else yp + fov
      let xleft : Int :=
        if xp + dx ≥ xc - 24 ∧ xp - dx ≤ xc + 24 then
          if xp - dx > xc - 24 then xp - dx - fov + xoffset
          else xp + dx - fov + xoffset
        else xp - fov + xoffset
      { data0 := ((-yhi - 1) % 512).toNat
        data1 := ((-xleft - 1) % 1024).toNat
        data2 := ((-ylo - 1) % 512).toNat
        xwindow := if i.interlace then
            decide (xp > xc - 24 ∧ xp < xc + 24) else false
        ywindow := if i.interlace then
            decide (yp > yc - 24 ∧ yp < yc + 24) else false
        status := true }
  let d1 :=
    if !base.xwindow then
      { base with data0 := base.data0 ||| 0x2000
                  data1 := base.data1 ||| 0x2000
                  data2 := base.data2 ||| 0x2000 }
    else base
  let d2 :=
    if !d1.ywindow then
      { d1 with data1 := d1.data1 ||| 0x4000, data2 := d1.data2 ||| 0x4000 }
    else d1
  if !d2.status then
    { d2 with data0 := d2.data0 ||| 0x800
              data1 := d2.data1 ||| 0x800
              data2 := d2.data2 ||| 0x800 }
  else d2

set_option maxRecDepth 8000 in
set_option maxHeartbeats 1000000 in
/-- C8: in light-pen self-test mode, the three hit registers are fixed
offsets from the cursor position (`YHI = ~(cursor_y+16) & 0x1ff`,
`XLEFT = ~(cursor_x + 57 - 80) & 0x3ff`, `YLO = ~(cursor_y+32) & 0x1ff`),
bypassing the geometric field-of-view computation, and are independent of
the pointer input: two runs differing only in the pointer x, y and button
state produce identical results. -/
theorem lp_selftest_independent_of_pointer
    (cx cy : Nat) (il : Bool) (x1 y1 : Nat) (sw1 : Bool)
    (x2 y2 : Nat) (sw2 : Bool) :
    compute_lp_data ⟨true, cx, cy, il, x1, y1, sw1⟩
        = compute_lp_data ⟨true, cx, cy, il, x2, y2, sw2⟩
  ∧ (compute_lp_data ⟨true, cx, cy, il, x1, y1, sw1⟩).data0
        = ((-((cy : Int) + 16) - 1) % 512).toNat
  ∧ (compute_lp_data ⟨true, cx, cy, il, x1, y1, sw1⟩).data1
        = ((-((cx : Int) + (57 - (VIDEO_770_ALPHA_L_LIM : Int))) - 1)
            % 1024).toNat
  ∧ (compute_lp_data ⟨true, cx, cy, il, x1, y1, sw1⟩).data2
        = ((-((cy : Int) + 32) - 1) % 512).toNat :=
  ⟨rfl, rfl, rfl, rfl⟩

end HP9845
